import Mathlib

/-!
Verification of the CVE-driven rollout control loop of Stellar-K8s.

The repository slice under verification consists of the CVE controller
data model (`Vulnerability`, `VulnerabilitySeverity`, `CVECount`,
`CVEDetectionResult`, `CVEHandlingConfig`, `CanaryTestStatus`,
`CVERolloutStatus`), the rollout state machine, the canary runner and
consensus health gate, and the `kubectl-stellar` CLI plugin
(`kubectl_plugin.rs`).  The controller implementation file itself is not
part of the visible sources (only its test module `cve_test.rs` and the
CLI are), so those definitions are modelled from the specification and
checked against the concrete values appearing in the test module.
-/

namespace StellarK8s

/-- Severity of one vulnerability finding.  Constructors are listed in
ascending rank so that the derived order matches
`Critical > High > Medium > Low > Unknown`.
Modelled from the spec: the `VulnerabilitySeverity` enum of the CVE
controller module is absent from the visible sources; the spec fixes the
total order and `cve_test.rs` asserts the four strict comparisons. -/
inductive VulnerabilitySeverity where
  | Unknown
  | Low
  | Medium
  | High
  | Critical
deriving DecidableEq, Repr, Fintype

namespace VulnerabilitySeverity

/-- Numeric rank of a severity, mirroring the discriminant order used by
the derived Rust `Ord`. -/
def rank : VulnerabilitySeverity → Nat
  | Unknown => 0
  | Low => 1
  | Medium => 2
  | High => 3
  | Critical => 4

/-- Strict comparison between severities, as produced by the derived
`PartialOrd`/`Ord` on the Rust enum. -/
def sevLt (a b : VulnerabilitySeverity) : Bool := rank a < rank b

end VulnerabilitySeverity

/-- One vulnerability finding, as constructed in `cve_test.rs`. -/
structure Vulnerability where
  cve_id : String
  severity : VulnerabilitySeverity
  package : String
  installed_version : String
  fixed_version : Option String
  description : String
deriving DecidableEq, Repr

/-- Aggregate counters by severity.
Modelled from the spec: `CVECount` holds the five non-negative counters
{critical, high, medium, low, unknown}. -/
structure CVECount where
  critical : Nat := 0
  high : Nat := 0
  medium : Nat := 0
  low : Nat := 0
  unknown : Nat := 0
deriving DecidableEq, Repr

/-- Modelled from the spec: `CVECount.total()` is the sum of all five
counters; `cve_test.rs` checks `total() = 15` on the count `1,2,3,4,5`. -/
def CVECount.total (c : CVECount) : Nat :=
  c.critical + c.high + c.medium + c.low + c.unknown

/-- A scan snapshot for one node, with the fields used by
`cve_test.rs` (the scan timestamp is abstracted to a number). -/
structure CVEDetectionResult where
  current_image : String
  vulnerabilities : List Vulnerability
  patched_version : Option String
  scan_timestamp : Nat
  cve_count : CVECount
  has_critical : Bool
deriving DecidableEq, Repr

/-- Modelled from the spec: `requires_urgent_patch()` is true iff the
`has_critical` fast-path flag is set; it reads the flag, not the
vulnerability list. -/
def CVEDetectionResult.requires_urgent_patch (r : CVEDetectionResult) : Bool :=
  r.has_critical

/-- Modelled from the spec: `can_patch()` is true iff a `patched_version`
is present. -/
def CVEDetectionResult.can_patch (r : CVEDetectionResult) : Bool :=
  r.patched_version.isSome

/-- CVE handling policy, with the fields and defaults asserted by
`test_cve_handling_config_defaults`.  The two floating-point thresholds
are modelled as rationals. -/
structure CVEHandlingConfig where
  enabled : Bool := true
  scan_interval_secs : Nat := 3600
  critical_only : Bool := false
  canary_test_timeout_secs : Nat := 300
  canary_pass_rate_threshold : ℚ := 100
  enable_auto_rollback : Bool := true
  consensus_health_threshold : ℚ := 95/100
deriving DecidableEq, Repr

/-- State of one canary evaluation. -/
inductive CanaryTestStatus where
  | Pending
  | Running
  | Passed
  | Failed
  | Timeout
deriving DecidableEq, Repr

/-- State of one node's remediation lifecycle. -/
inductive CVERolloutStatus where
  | Idle
  | CanaryTesting
  | Rolling
  | Complete
  | RollingBack
  | RolledBack
  | Failed
deriving DecidableEq, Repr

/-- The detection result built by `test_cve_detection_result_requires_patch`
in `cve_test.rs`: one Critical finding, patch available, `has_critical` set. -/
def testResultWithCritical : CVEDetectionResult :=
  { current_image := "stellar/core:v21.0.0"
    vulnerabilities := [
      { cve_id := "CVE-2024-1234"
        severity := VulnerabilitySeverity.Critical
        package := "openssl"
        installed_version := "1.0.0"
        fixed_version := some "1.0.1"
        description := "Critical vulnerability in OpenSSL" }]
    patched_version := some "stellar/core:v21.0.1"
    scan_timestamp := 0
    cve_count := { critical := 1 }
    has_critical := true }

/-- The detection result built by `test_cve_detection_without_patch` in
`cve_test.rs`: empty vulnerability list, `cve_count.critical = 1`,
`has_critical` set, no patch available. -/
def testResultWithoutPatch : CVEDetectionResult :=
  { current_image := "stellar/core:v21.0.0"
    vulnerabilities := []
    patched_version := none
    scan_timestamp := 0
    cve_count := { critical := 1 }
    has_critical := true }

/-- Modelled from the spec: a scan result qualifies for remediation when
handling is `enabled`, a patch exists, and either a Critical finding is
present or (`critical_only = false`) any finding is present
(spec §4.3, Idle row guard). -/
def qualifies (cfg : CVEHandlingConfig) (r : CVEDetectionResult) : Bool :=
  cfg.enabled && r.can_patch &&
    (r.requires_urgent_patch || (!cfg.critical_only && !r.vulnerabilities.isEmpty))

/-- Modelled from the spec: the failure branch selected by
`enable_auto_rollback` (spec §4.3): `RollingBack` when auto-rollback is
enabled, `Failed` otherwise. -/
def rollbackBranch (cfg : CVEHandlingConfig) : CVERolloutStatus :=
  if cfg.enable_auto_rollback then CVERolloutStatus.RollingBack
  else CVERolloutStatus.Failed

/-- Events driving a node's rollout lifecycle (spec §4.3 trigger column). -/
inductive RolloutEvent where
  /-- a scan cycle delivered a fresh detection result -/
  | scan (r : CVEDetectionResult)
  /-- the canary evaluation finished with the given status; the health
  gate verdict is sampled together with it before widening -/
  | canaryResult (st : CanaryTestStatus) (gatePass : Bool)
  /-- a health check during the widen phase -/
  | wideningHealth (pass : Bool)
  /-- all replicas updated; the post-rollout health gate verdict -/
  | rolloutComplete (gatePass : Bool)
  /-- the rollback executor finished reverting the replicas -/
  | rollbackComplete
deriving DecidableEq, Repr

/-- Modelled from the spec: the rollout state machine's transition
function, one row per entry of the table in spec §4.3.  Missing
(state, event) pairs leave the state unchanged. -/
def rolloutStep (cfg : CVEHandlingConfig) :
    CVERolloutStatus → RolloutEvent → CVERolloutStatus
  | .Idle, .scan r => if qualifies cfg r then .CanaryTesting else .Idle
  | .CanaryTesting, .canaryResult st gatePass =>
    match st with
    | .Passed => if gatePass then .Rolling else rollbackBranch cfg
    | .Failed => rollbackBranch cfg
    | .Timeout => rollbackBranch cfg
    | _ => .CanaryTesting
  | .Rolling, .wideningHealth pass => if pass then .Rolling else rollbackBranch cfg
  | .Rolling, .rolloutComplete gatePass =>
    if gatePass then .Complete else rollbackBranch cfg
  | .RollingBack, .rollbackComplete => .RolledBack
  | .Complete, .scan r => if qualifies cfg r then .CanaryTesting else .Idle
  | .RolledBack, .scan r => if qualifies cfg r then .CanaryTesting else .Idle
  | .Failed, .scan r => if qualifies cfg r then .CanaryTesting else .Idle
  | s, _ => s

/-- A terminal rollout state: `Complete` (success), `RolledBack` or
`Failed` (failure). -/
def CVERolloutStatus.isTerminal : CVERolloutStatus → Bool
  | .Complete => true
  | .RolledBack => true
  | .Failed => true
  | _ => false

/-- Per-node rollout record: the current lifecycle state and the
triggering detection result (spec §3, Rollout Record). -/
structure RolloutRecord where
  status : CVERolloutStatus
  detection : CVEDetectionResult
deriving DecidableEq, Repr

/-- A record is active when its rollout is in flight: neither terminal
nor idle. -/
def RolloutRecord.isActive (rec : RolloutRecord) : Bool :=
  match rec.status with
  | .CanaryTesting => true
  | .Rolling => true
  | .RollingBack => true
  | _ => false

/-- Modelled from the spec: one step of the per-node rollout-record
arena.  A qualifying detection while a rollout is in flight is ignored
(spec §4.3 invariant); with no rollout in flight it creates one record in
`CanaryTesting` and drops records that reached a terminal state; other
events advance the active record through `rolloutStep`. -/
def nodeStep (cfg : CVEHandlingConfig) (recs : List RolloutRecord) :
    RolloutEvent → List RolloutRecord
  | .scan r =>
    if recs.any RolloutRecord.isActive then
      recs
    else if qualifies cfg r then
      { status := CVERolloutStatus.CanaryTesting, detection := r } ::
        recs.filter (fun rec => ! rec.status.isTerminal)
    else
      recs.filter (fun rec => ! rec.status.isTerminal)
  | e =>
    recs.map (fun rec =>
      if rec.isActive then { rec with status := rolloutStep cfg rec.status e }
      else rec)

/-- A node's rollout records after a sequence of events, starting with no
record. -/
def runNode (cfg : CVEHandlingConfig) (events : List RolloutEvent) :
    List RolloutRecord :=
  events.foldl (fun recs e => nodeStep cfg recs e) []

/-- One replica's health snapshot as returned by the external probe
(spec §6). -/
structure ReplicaHealth where
  healthy : Bool
  synced : Bool
  ledger_sequence : Option Nat
  message : String
deriving DecidableEq, Repr

/-- Modelled from the spec: the Consensus Health Gate `evaluate()`
(spec §4.5): the healthy fraction over all replicas and the pass verdict
`fraction >= consensus_health_threshold`; with zero replicas the gate
fails closed with the fraction reported as 0. -/
def evaluateGate (cfg : CVEHandlingConfig) (replicas : List ReplicaHealth) :
    ℚ × Bool :=
  if replicas.length = 0 then (0, false)
  else
    let frac : ℚ := (replicas.countP (fun rh => rh.healthy) : ℚ) / replicas.length
    (frac, decide (cfg.consensus_health_threshold ≤ frac))

/-- Modelled from the spec: the outcome of one canary evaluation
(spec §4.4): no result within the timeout yields `Timeout`; a completed
run compares its observed pass rate against
`canary_pass_rate_threshold`, inclusively. -/
def run_canary (cfg : CVEHandlingConfig) (sample : Option ℚ) :
    CanaryTestStatus :=
  match sample with
  | none => CanaryTestStatus.Timeout
  | some rate =>
    if cfg.canary_pass_rate_threshold ≤ rate then CanaryTestStatus.Passed
    else CanaryTestStatus.Failed

/-- The CLI's global options (`kubectl_plugin.rs` lines 22-33): the
`--namespace` option (`ns` here, `namespace` being a Lean keyword) and
the output format. -/
structure CliOpts where
  ns : Option String
  output : String
deriving DecidableEq, Repr

/-- Which StellarNode API a CLI command queries: cluster-wide or one
namespace. -/
inductive ApiScope where
  | all
  | namespaced (ns : String)
deriving DecidableEq, Repr

/-- The StellarNode query performed by `list_nodes`
(`kubectl_plugin.rs` lines 120-158): cluster-wide with
`--all-namespaces`, otherwise the hardcoded namespace `"default"`. -/
def list_nodes_query (all_namespaces : Bool) : ApiScope :=
  if all_namespaces then ApiScope.all else ApiScope.namespaced "default"

/-- The query performed by the `run` dispatch for the List command
(`kubectl_plugin.rs` lines 92-94): `run` forwards only the
`all_namespaces` flag to `list_nodes`; the global namespace option of
`cli` is not passed. -/
def run_list_query (_cli : CliOpts) (all_namespaces : Bool) : ApiScope :=
  list_nodes_query all_namespaces

/-- The node query performed by `status`
(`kubectl_plugin.rs` lines 301-318), which, by contrast, does receive
the global namespace option: a named node is fetched from
`namespace.unwrap_or("default")`, otherwise all namespaces or the
`namespace.unwrap_or("default")` listing. -/
def run_status_query (cli : CliOpts) (node_name : Option String)
    (all_namespaces : Bool) : ApiScope :=
  match node_name with
  | some _ => ApiScope.namespaced (cli.ns.getD "default")
  | none =>
    if all_namespaces then ApiScope.all
    else ApiScope.namespaced (cli.ns.getD "default")

/-- A byte in 0x80..0xBF, i.e. a UTF-8 continuation byte. -/
def isContByte (b : Nat) : Bool := 128 ≤ b && b < 192

/-- Rust `str::is_char_boundary` over the UTF-8 bytes of a string:
index 0 and the length are boundaries, an in-range index is a boundary
iff its byte is not a continuation byte. -/
def is_char_boundary (bytes : List Nat) (i : Nat) : Bool :=
  if i = 0 then true
  else if i = bytes.length then true
  else if i < bytes.length then !isContByte (bytes.getD i 0)
  else false

/-- Rust byte slicing `&s[..n]`: the first `n` bytes when `n` is a char
boundary; `none` models the panic raised otherwise. -/
def slice_to (bytes : List Nat) (n : Nat) : Option (List Nat) :=
  if is_char_boundary bytes n then some (bytes.take n) else none

/-- The UTF-8 bytes of `"..."`. -/
def dots : List Nat := [46, 46, 46]

/-- The MESSAGE cell rendering of the status table
(`kubectl_plugin.rs` lines 384-388): a message longer than 20 bytes is
replaced by `&message[..17]` followed by `"..."`; `none` models the
byte-slice panic. -/
def renderMessage (msg : List Nat) : Option (List Nat) :=
  if msg.length > 20 then (slice_to msg 17).map (fun pre => pre ++ dots)
  else some msg

/-- Validity of a byte list as UTF-8 (the invariant every Rust `String`
maintains): ASCII bytes stand alone; 2-, 3- and 4-byte sequences start
with a lead byte in the standard ranges followed by continuation bytes,
excluding overlong encodings and surrogates. -/
def utf8Valid : List Nat → Bool
  | [] => true
  | b :: rest =>
    if b < 128 then utf8Valid rest
    else if b < 194 then false
    else if b < 224 then
      match rest with
      | c1 :: r => isContByte c1 && utf8Valid r
      | [] => false
    else if b < 240 then
      match rest with
      | c1 :: _c2 :: r =>
        isContByte c1 && isContByte _c2 &&
          (decide (b ≠ 224) || decide (160 ≤ c1)) &&
          (decide (b ≠ 237) || decide (c1 < 160)) && utf8Valid r
      | _ => false
    else if b < 245 then
      match rest with
      | c1 :: _c2 :: _c3 :: r =>
        isContByte c1 && isContByte _c2 && isContByte _c3 &&
          (decide (b ≠ 240) || decide (144 ≤ c1)) &&
          (decide (b ≠ 244) || decide (c1 < 144)) && utf8Valid r
      | _ => false
    else false

/-- The UTF-8 bytes of the 21-character, 22-byte message
`"AAAAAAAAAAAAAAAAéAAAA"`: sixteen `A`s, the two-byte sequence for `é`
crossing byte index 17, then four `A`s. -/
def multibyteMsg : List Nat :=
  List.replicate 16 65 ++ [195, 169] ++ List.replicate 4 65

end StellarK8s

namespace StellarK8s

/-- **C1.** `requires_urgent_patch()` returns true iff `has_critical` is
true, for every `CVEDetectionResult`; in particular it returns true on the
test value whose vulnerability list is empty but whose `has_critical` flag
and `cve_count.critical` are set, so the predicate reads the flag, not the
list. -/
theorem requires_urgent_patch_iff_has_critical :
    (∀ r : CVEDetectionResult,
      r.requires_urgent_patch = true ↔ r.has_critical = true) ∧
    testResultWithoutPatch.vulnerabilities = [] ∧
    testResultWithoutPatch.cve_count.critical = 1 ∧
    testResultWithoutPatch.requires_urgent_patch = true := by
  refine ⟨fun r => Iff.rfl, rfl, rfl, rfl⟩

/-- **C6.** `can_patch()` returns true iff `patched_version` is `Some`,
and false whenever it is `None`, regardless of `has_critical` or the
vulnerability list; checked on both test values of `cve_test.rs`. -/
theorem can_patch_iff_patched_version_some :
    (∀ r : CVEDetectionResult,
      (r.can_patch = true ↔ ∃ v, r.patched_version = some v) ∧
      (r.patched_version = none → r.can_patch = false)) ∧
    testResultWithCritical.can_patch = true ∧
    testResultWithoutPatch.can_patch = false := by
  refine ⟨fun r => ⟨?_, ?_⟩, rfl, rfl⟩
  · simp [CVEDetectionResult.can_patch, Option.isSome_iff_exists]
  · intro h
    simp [CVEDetectionResult.can_patch, h]

/-- Witness for C6 at the two concrete test values. -/
theorem can_patch_iff_patched_version_some_witness :
    testResultWithoutPatch.can_patch = false :=
  (can_patch_iff_patched_version_some.1 testResultWithoutPatch).2 rfl

/-- **C7.** `CVECount.total()` equals the sum of the five counter fields
for every `CVECount`, including the all-zero value, and evaluates to `15`
on the count `1,2,3,4,5` of `test_cve_count_total`. -/
theorem cve_count_total_eq_sum :
    (∀ c : CVECount,
      c.total = c.critical + c.high + c.medium + c.low + c.unknown) ∧
    CVECount.total {} = 0 ∧
    CVECount.total { critical := 1, high := 2, medium := 3, low := 4, unknown := 5 } = 15 := by
  refine ⟨fun c => rfl, rfl, rfl⟩

/-- **C8.** The severity order is a strict total order: irreflexive,
transitive, trichotomous, with `Critical > High > Medium > Low > Unknown`
and equal severities comparing equal. -/
theorem severity_strict_total_order :
    (∀ a : VulnerabilitySeverity, VulnerabilitySeverity.sevLt a a = false) ∧
    (∀ a b c : VulnerabilitySeverity,
      VulnerabilitySeverity.sevLt a b = true →
      VulnerabilitySeverity.sevLt b c = true →
      VulnerabilitySeverity.sevLt a c = true) ∧
    (∀ a b : VulnerabilitySeverity,
      VulnerabilitySeverity.sevLt a b = true ∨ a = b ∨
      VulnerabilitySeverity.sevLt b a = true) ∧
    (∀ a b : VulnerabilitySeverity,
      VulnerabilitySeverity.sevLt a b = true → a ≠ b) ∧
    VulnerabilitySeverity.sevLt .High .Critical = true ∧
    VulnerabilitySeverity.sevLt .Medium .High = true ∧
    VulnerabilitySeverity.sevLt .Low .Medium = true ∧
    VulnerabilitySeverity.sevLt .Unknown .Low = true := by
  refine ⟨?_, ?_, ?_, ?_, rfl, rfl, rfl, rfl⟩ <;> decide

/-- Witness for C8: transitivity applied at `Unknown < Low < Medium`. -/
theorem severity_strict_total_order_witness :
    VulnerabilitySeverity.sevLt .Unknown .Medium = true :=
  severity_strict_total_order.2.1 .Unknown .Low .Medium (by decide) (by decide)

/-- **C2.** From `CanaryTesting`, a canary result of `Failed` or
`Timeout` moves the state machine to `RollingBack` when
`enable_auto_rollback` is true and to `Failed` when it is false; with
auto-rollback enabled, completion of the rollback then reaches
`RolledBack`. -/
theorem canary_failure_selects_rollback_branch
    (cfg : CVEHandlingConfig) (st : CanaryTestStatus) (gatePass : Bool)
    (h : st = CanaryTestStatus.Failed ∨ st = CanaryTestStatus.Timeout) :
    rolloutStep cfg .CanaryTesting (.canaryResult st gatePass) =
      (if cfg.enable_auto_rollback then CVERolloutStatus.RollingBack
       else CVERolloutStatus.Failed) ∧
    (cfg.enable_auto_rollback = true →
      rolloutStep cfg
        (rolloutStep cfg .CanaryTesting (.canaryResult st gatePass))
        .rollbackComplete = CVERolloutStatus.RolledBack) := by
  rcases h with h | h <;> subst h <;>
    cases hb : cfg.enable_auto_rollback <;>
      simp [rolloutStep, rollbackBranch, hb]

/-- Witness for C2 at the default configuration and a `Timeout` canary
result. -/
theorem canary_failure_selects_rollback_branch_witness :
    rolloutStep {} .CanaryTesting (.canaryResult .Timeout true) =
      CVERolloutStatus.RollingBack ∧
    rolloutStep {} (rolloutStep {} .CanaryTesting (.canaryResult .Timeout true))
      .rollbackComplete = CVERolloutStatus.RolledBack := by
  have h := canary_failure_selects_rollback_branch {} .Timeout true (Or.inr rfl)
  exact ⟨h.1.trans (by decide), h.2 rfl⟩

/-- Advancing the active records of a list cannot increase the number of
active records: inactive records are untouched and an active one maps to
at most one active record. -/
theorem countP_isActive_map_update_le
    (upd : CVERolloutStatus → CVERolloutStatus) (recs : List RolloutRecord) :
    (recs.map (fun rec =>
      if rec.isActive then { rec with status := upd rec.status } else rec)).countP
        RolloutRecord.isActive ≤ recs.countP RolloutRecord.isActive := by
  induction recs with
  | nil => simp
  | cons a t ih =>
    simp only [List.map_cons, List.countP_cons]
    by_cases ha : a.isActive = true
    · refine Nat.add_le_add ih ?_
      simp only [if_pos ha]
      split <;> omega
    · refine Nat.add_le_add ih ?_
      simp only [if_neg ha]
      omega

/-- One step of the per-node arena preserves the bound of one active
rollout record. -/
theorem countP_isActive_nodeStep_le
    (cfg : CVEHandlingConfig) (recs : List RolloutRecord) (e : RolloutEvent)
    (h : recs.countP RolloutRecord.isActive ≤ 1) :
    (nodeStep cfg recs e).countP RolloutRecord.isActive ≤ 1 := by
  cases e with
  | scan r =>
    by_cases ha : recs.any RolloutRecord.isActive = true
    · simpa [nodeStep, ha] using h
    · have ha' : recs.any RolloutRecord.isActive = false :=
        Bool.eq_false_iff.mpr ha
      have h0 : recs.countP RolloutRecord.isActive = 0 :=
        List.countP_eq_zero.mpr (List.any_eq_false.mp ha')
      have hfil :
          (recs.filter (fun rec => ! rec.status.isTerminal)).countP
            RolloutRecord.isActive = 0 :=
        Nat.le_zero.mp (h0 ▸ List.Sublist.countP_le _ (List.filter_sublist recs))
      by_cases hq : qualifies cfg r = true
      · simp [nodeStep, ha', hq, List.countP_cons, hfil, RolloutRecord.isActive]
      · simp only [nodeStep, ha', Bool.false_eq_true, if_false, hq]
        omega
  | canaryResult st gatePass =>
    have hmap := countP_isActive_map_update_le
      (fun s => rolloutStep cfg s (RolloutEvent.canaryResult st gatePass)) recs
    exact le_trans hmap h
  | wideningHealth pass =>
    have hmap := countP_isActive_map_update_le
      (fun s => rolloutStep cfg s (RolloutEvent.wideningHealth pass)) recs
    exact le_trans hmap h
  | rolloutComplete gatePass =>
    have hmap := countP_isActive_map_update_le
      (fun s => rolloutStep cfg s (RolloutEvent.rolloutComplete gatePass)) recs
    exact le_trans hmap h
  | rollbackComplete =>
    have hmap := countP_isActive_map_update_le
      (fun s => rolloutStep cfg s RolloutEvent.rollbackComplete) recs
    exact le_trans hmap h

/-- The bound of one active record is preserved along any event
sequence. -/
theorem countP_isActive_foldl_le
    (cfg : CVEHandlingConfig) (events : List RolloutEvent) :
    ∀ recs : List RolloutRecord, recs.countP RolloutRecord.isActive ≤ 1 →
      (events.foldl (fun recs e => nodeStep cfg recs e) recs).countP
        RolloutRecord.isActive ≤ 1 := by
  induction events with
  | nil => intro recs h; simpa using h
  | cons e t ih =>
    intro recs h
    exact ih (nodeStep cfg recs e) (countP_isActive_nodeStep_le cfg recs e h)

/-- **C3.** Starting from no rollout record, after every sequence of
state-machine events at most one active (non-terminal, non-idle) rollout
record exists for the node; moreover a qualifying detection arriving
while a rollout is in flight leaves the record list unchanged — it never
creates a second record. -/
theorem at_most_one_active_rollout
    (cfg : CVEHandlingConfig) (events : List RolloutEvent) :
    (runNode cfg events).countP RolloutRecord.isActive ≤ 1 ∧
    (∀ (recs : List RolloutRecord) (r : CVEDetectionResult),
      recs.any RolloutRecord.isActive = true →
      nodeStep cfg recs (.scan r) = recs) := by
  constructor
  · exact countP_isActive_foldl_le cfg events [] (by simp)
  · intro recs r hactive
    simp [nodeStep, hactive]

/-- Witness for C3: a scan delivering the qualifying test detection while
a `CanaryTesting` record is in flight leaves the arena unchanged. -/
theorem at_most_one_active_rollout_witness :
    nodeStep {} [⟨.CanaryTesting, testResultWithoutPatch⟩]
      (.scan testResultWithCritical) =
      [⟨.CanaryTesting, testResultWithoutPatch⟩] :=
  (at_most_one_active_rollout {} []).2
    [⟨.CanaryTesting, testResultWithoutPatch⟩] testResultWithCritical rfl

/-- **C4.** With zero replicas the Consensus Health Gate fails closed:
`evaluate()` reports the healthy fraction as 0 and `pass = false` for
every configuration, hence for every value of
`consensus_health_threshold`, and the fraction is never computed by a
division by zero. -/
theorem gate_fails_closed_on_zero_replicas :
    ∀ cfg : CVEHandlingConfig, evaluateGate cfg [] = (0, false) := by
  intro cfg
  rfl

/-- **C5.** A canary run that completes with a pass rate exactly equal
to `canary_pass_rate_threshold` yields `Passed`, not `Failed`: the
boundary is inclusive (`rate >= threshold` yields `Passed`, strictly
below yields `Failed`). -/
theorem canary_threshold_boundary_inclusive
    (cfg : CVEHandlingConfig) (rate : ℚ) :
    (rate = cfg.canary_pass_rate_threshold →
      run_canary cfg (some rate) = CanaryTestStatus.Passed) ∧
    (cfg.canary_pass_rate_threshold ≤ rate →
      run_canary cfg (some rate) = CanaryTestStatus.Passed) ∧
    (rate < cfg.canary_pass_rate_threshold →
      run_canary cfg (some rate) = CanaryTestStatus.Failed) := by
  refine ⟨fun h => ?_, fun h => ?_, fun h => ?_⟩
  · subst h
    simp [run_canary]
  · simp [run_canary, h]
  · simp [run_canary, not_le.mpr h]

/-- Witness for C5: at the default threshold `100.0`, a pass rate of
exactly `100.0` yields `Passed`. -/
theorem canary_threshold_boundary_inclusive_witness :
    run_canary {} (some 100) = CanaryTestStatus.Passed :=
  (canary_threshold_boundary_inclusive {} 100).1 rfl

/-- **C9.** The List command without `--all-namespaces` always queries
the fixed namespace `"default"`, whatever `--namespace` the user
supplied: `run` never forwards the global namespace option to
`list_nodes`.  By contrast the status command does consult it. -/
theorem list_ignores_namespace_option :
    (∀ (nsOpt : Option String) (out : String),
      run_list_query { ns := nsOpt, output := out } false =
        ApiScope.namespaced "default") ∧
    run_list_query { ns := some "kube-system", output := "table" } false =
      ApiScope.namespaced "default" ∧
    run_status_query { ns := some "kube-system", output := "table" } none false =
      ApiScope.namespaced "kube-system" := by
  exact ⟨fun nsOpt out => rfl, rfl, rfl⟩

/-- The claim that the status table's message rendering is total fails:
`multibyteMsg` is a valid UTF-8 message of byte length 22 (> 20) whose
byte index 17 falls inside a two-byte character, so the slice
`&message[..17]` panics instead of displaying a truncation. -/
theorem status_message_truncation_panics :
    utf8Valid multibyteMsg = true ∧
    multibyteMsg.length > 20 ∧
    renderMessage multibyteMsg = none := by
  decide

/-- **C10 (amended).** For every message longer than 20 bytes whose byte
index 17 falls on a UTF-8 character boundary, the status table displays
the first 17 bytes of the message followed by `"..."`; when index 17
falls inside a multi-byte character the rendering panics instead (it is
not total). -/
theorem status_message_truncation
    (msg : List Nat) (hlen : msg.length > 20)
    (hb : is_char_boundary msg 17 = true) :
    renderMessage msg = some (msg.take 17 ++ dots) := by
  simp [renderMessage, slice_to, hlen, hb]

/-- Witness for C10 at a 22-byte ASCII message. -/
theorem status_message_truncation_witness :
    renderMessage (List.replicate 22 65) =
      some ((List.replicate 22 65).take 17 ++ dots) :=
  status_message_truncation (List.replicate 22 65) (by decide) (by decide)

end StellarK8s
